import Mathlib

/-!
Shallow embedding of the PortRedirectorTool core (src/port_redirector/src/)
in Lean 4, used to verify the natural-language specification against the
code.

The embedding covers:
* `InputSocket` — the transport enum of `input_stream.rs`, with the
  `Option` reader/writer fields modelled as `Bool` flags (present /
  absent), and its `read` / `write` methods.  The outcomes of the
  underlying OS calls (stream read, `accept`, `write_all`) are supplied
  by the environment as explicit oracle arguments.
* `publishAux` / `publish` — the fan-out backpressure loop inside
  `InputSocket::run_loop` (exponential backoff, retry cap, drop
  counter, log lines).
* `flushPending`, `handleEvent`, `handlerIteration` — the per-client
  handler loop of `RetransmitServer::run_loop` (pending-write queue,
  write timeouts, slow-client counter, eviction, buffer-full
  disconnect).

Time (sleeps and write timeouts) is modelled by recording the requested
delays; machine counters (`AtomicU64`, the `i32` warning counter) are
modelled as `Nat` — every execution considered here stays far below any
wrap-around point.
-/

namespace PortRedirector

/-- One opaque chunk of bytes moved through a channel (`Vec<u8>` in the
source); bytes are modelled as `Nat`. -/
abbrev Frame := List Nat

/-! ## Statistics and log messages of the input-side run loop -/

/-- The two process-wide counters of `InputSocket::run_loop`
(`DROPPED_MESSAGES` and `BACKPRESSURE_EVENTS`). -/
structure Stats where
  droppedMessages : Nat
  backpressureEvents : Nat
deriving DecidableEq, Repr

/-- Log lines emitted by the publish/backpressure loop of
`InputSocket::run_loop`. -/
inductive LogMsg where
  /-- eprintln "WARNING: Broadcast channel full, applying backpressure (event #..)" -/
  | backpressureWarn (eventNo : Nat)
  /-- eprintln "Backpressure: retry .. after ..ms delay" -/
  | retryMsg (retryNo delayMs : Nat)
  /-- eprintln "ERROR: Message dropped after .. retries (total dropped: ..)" -/
  | droppedErr (totalDropped : Nat)
  /-- println "Backpressure resolved after .. retries" -/
  | recovered (retries : Nat)
deriving DecidableEq, Repr

/-- Outcome of one attempt to publish a frame on the fan-out channel. -/
inductive PubOutcome where
  | sent (retries : Nat)
  | dropped
deriving DecidableEq, Repr

/-- Result of the publish/backpressure loop: the outcome, the updated
counters, the list of sleep delays (in ms) requested in order, and the
log lines emitted in order. -/
structure PublishResult where
  outcome : PubOutcome
  stats : Stats
  delays : List Nat
  logs : List LogMsg
deriving DecidableEq, Repr

/-- const MAX_RETRIES: u32 = 10 (input_stream.rs). -/
def MAX_RETRIES : Nat := 10

/-- const BASE_DELAY_MS: u64 = 1 (input_stream.rs). -/
def BASE_DELAY_MS : Nat := 1

/-- The inner publish loop of `InputSocket::run_loop` (input_stream.rs
lines 244-280).  `avail k` tells whether the `tx_channel.send` performed
with `retry_count = k` succeeds (the channel environment is an oracle).
`k` is the source's `retry_count`; `remaining` is
`MAX_RETRIES - retry_count`, so the source's cap check
`retry_count >= MAX_RETRIES` is exactly the case `remaining = 0`
(`remaining` decreases by one whenever `retry_count` increases by one,
starting from `publish` at `retry_count = 0`,
`remaining = MAX_RETRIES`). -/
def publishAux (avail : Nat → Bool) (k remaining : Nat) (stats : Stats) : PublishResult :=
  if avail k then
    { outcome := .sent k, stats := stats, delays := [],
      logs := if 0 < k then [.recovered k] else [] }
  else
    let stats1 := if k = 0 then
        { stats with backpressureEvents := stats.backpressureEvents + 1 }
      else stats
    let warn : List LogMsg :=
      if k = 0 then [.backpressureWarn stats1.backpressureEvents] else []
    match remaining with
    | 0 =>
      { outcome := .dropped,
        stats := { stats1 with droppedMessages := stats1.droppedMessages + 1 },
        delays := [],
        logs := warn ++ [.droppedErr (stats1.droppedMessages + 1)] }
    | r + 1 =>
      let d := BASE_DELAY_MS * 2 ^ k
      let rest := publishAux avail (k + 1) r stats1
      { outcome := rest.outcome, stats := rest.stats,
        delays := d :: rest.delays,
        logs := warn ++ (if k % 3 = 0 then [.retryMsg (k + 1) d] else []) ++ rest.logs }

/-- Publishing one frame on the fan-out channel: the backpressure loop
entered with `retry_count = 0`. -/
def publish (avail : Nat → Bool) (stats : Stats) : PublishResult :=
  publishAux avail 0 MAX_RETRIES stats

/-- The sleep delays requested by `j` consecutive failed sends starting
at `retry_count = k`: `BASE_DELAY_MS * 2^k, ..., BASE_DELAY_MS * 2^(k+j-1)`. -/
def geomDelays : Nat → Nat → List Nat
  | _, 0 => []
  | k, j + 1 => (BASE_DELAY_MS * 2 ^ k) :: geomDelays (k + 1) j

/-- The read branch of `InputSocket::run_loop` (input_stream.rs lines
240-281): a read returned `Ok(n)`; the 8192-byte buffer is truncated to
`n` bytes and the result is published with the backpressure loop.
Returns the list of frames actually sent on the fan-out channel in this
iteration (empty when the publish loop dropped the frame) and the
updated counters. -/
def runLoopPublishOnRead (avail : Nat → Bool) (stats : Stats) (buf : Frame) (n : Nat) :
    List Frame × Stats :=
  let frame := buf.take n
  let r := publish avail stats
  match r.outcome with
  | .sent _ => ([frame], r.stats)
  | .dropped => ([], r.stats)

/-! ## The InputSocket transport (input_stream.rs) -/

/-- The `InputSocket` enum.  The `Option<ReadHalf>/Option<WriteHalf>`
(resp. `Option<UdpSocket>`, `Option<TcpListener>`, `Option<TcpStream>`)
fields are modelled as `Bool` flags recording presence. -/
inductive InputSocket where
  | tcpSocket (ip : String) (port : Option Nat) (conn : Bool)
  | tcpServer (port : Nat) (server : Bool) (stream : Bool)
  | udpSocket (port : Nat) (bound : Bool)
  | serial (portName : String) (baudrate : Option Nat) (conn : Bool)
deriving DecidableEq, Repr

/-- Outcome of an underlying I/O call (`io::Result<usize>`). -/
inductive IORes where
  | ok (n : Nat)
  | err
deriving DecidableEq, Repr

/-- `InputSocket::read` (input_stream.rs lines 133-188).  `underlying`
is the outcome of the underlying stream read / `recv` when one is
performed; `acceptOk` tells whether a performed `accept` succeeds.
Returns the read result together with the socket state after the call
(only the `TcpServer` variant mutates: its `stream` field is set on
accept and cleared on peer close or peer read error). -/
def InputSocket.read (s : InputSocket) (underlying : IORes) (acceptOk : Bool) :
    IORes × InputSocket :=
  match s with
  | .tcpSocket _ _ conn => if conn then (underlying, s) else (.err, s)
  | .tcpServer port srv strm =>
    if strm then
      match underlying with
      | .ok 0 => (.ok 0, .tcpServer port srv false)
      | .ok (n + 1) => (.ok (n + 1), .tcpServer port srv true)
      | .err => (.err, .tcpServer port srv false)
    else if srv then
      if acceptOk then (.ok 0, .tcpServer port srv true)
      else (.err, .tcpServer port srv false)
    else (.err, s)
  | .udpSocket _ bound => if bound then (underlying, s) else (.err, s)
  | .serial _ _ conn => if conn then (underlying, s) else (.err, s)

/-- Outcome of an underlying `write_all` call. -/
inductive WriteAllRes where
  | ok
  | err
deriving DecidableEq, Repr

/-- `InputSocket::write` (input_stream.rs lines 191-225).  `wr` is the
outcome of the underlying `write_all` when one is performed.  Returns
the `io::Result<usize>` (`Except Unit Nat`, error payload elided) and
the bytes actually handed to the transport (empty when nothing is
written). -/
def InputSocket.write (s : InputSocket) (buf : Frame) (wr : WriteAllRes) :
    Except Unit Nat × Frame :=
  match s with
  | .tcpSocket _ _ conn =>
    if conn then
      match wr with
      | .ok => (.ok buf.length, buf)
      | .err => (.error (), [])
    else (.error (), [])
  | .tcpServer _ _ strm =>
    if strm then
      match wr with
      | .ok => (.ok buf.length, buf)
      | .err => (.error (), [])
    else (.ok 0, [])
  | .udpSocket _ _ => (.ok 0, [])
  | .serial _ _ conn =>
    if conn then
      match wr with
      | .ok => (.ok buf.length, buf)
      | .err => (.error (), [])
    else (.error (), [])

/-! ## The per-client handler of RetransmitServer::run_loop
(retransmit_server.rs lines 70-154) -/

/-- const MAX_PENDING_WRITES: usize = 100 (retransmit_server.rs). -/
def MAX_PENDING_WRITES : Nat := 100

/-- Per-client handler state: the `pending_writes: VecDeque<Vec<u8>>`
(front of the deque at the head of the list) and the
`slow_client_warnings` counter. -/
structure ClientState where
  pending : List Frame
  slow : Nat
deriving DecidableEq, Repr

/-- Outcome of one timed `write_all` on the client socket:
`Ok(Ok(()))`, elapsed timeout (`Err(_)` of `tokio::time::timeout`), or
socket error (`Ok(Err(e))`). -/
inductive WriteRes where
  | ok
  | wtimeout
  | werr
deriving DecidableEq, Repr

/-- Log lines emitted by the per-client handler. -/
inductive ClientLog where
  /-- eprintln "WARNING: Client .. is slow (timeout #.., .. messages pending)" -/
  | slowWarn (timeoutNo pendingLen : Nat)
  /-- eprintln "ERROR: Client .. too slow, disconnecting" -/
  | tooSlowDisconnect
  /-- eprintln "Client .. disconnected (write error: ..)" / println "(write failed)" -/
  | writeErrClose
  /-- eprintln "WARNING: Client .. write timeout, buffering message" -/
  | writeTimeoutBuffering
  /-- eprintln "ERROR: Client .. buffer full (.. messages), disconnecting" -/
  | bufferFullClose
  /-- println "Input Client .. disconnected (connection closed)" -/
  | clientClosed
  /-- println "Failed to send data from client .. to input socket" -/
  | aggSendFailed
  /-- println "Client .. disconnected (read error)" -/
  | readErrClose
deriving DecidableEq, Repr

/-- How the pending-write flush loop exits. -/
inductive FlushOutcome where
  /-- the `while` loop finished (queue empty) or broke on a timeout: the
  handler goes on to the `select!`. -/
  | proceed
  /-- slow-client cap exceeded: the handler returns (disconnect). -/
  | evict
  /-- socket write error: the handler returns (disconnect). -/
  | werror
deriving DecidableEq, Repr

/-- The pending-write flush loop at the top of each handler iteration
(retransmit_server.rs lines 81-103): while the queue is non-empty,
attempt a timed `write_all` of the front element.  The oracle list
supplies the outcome of each timed write in order (an exhausted oracle
stops the loop like a break).  Returns the state after the loop, how it
exited, the frames successfully written (in order), and the log lines
emitted. -/
def flushPending : ClientState → List WriteRes → ClientState × FlushOutcome × List Frame × List ClientLog
  | st, oracle =>
    match st.pending, oracle with
    | [], _ => (st, .proceed, [], [])
    | _ :: _, [] => (st, .proceed, [], [])
    | data :: rest, w :: ws =>
      match w with
      | .ok =>
        let r := flushPending { st with pending := rest } ws
        (r.1, r.2.1, data :: r.2.2.1, r.2.2.2)
      | .werr => (st, .werror, [], [.writeErrClose])
      | .wtimeout =>
        let st1 : ClientState := { st with slow := st.slow + 1 }
        let warn : List ClientLog :=
          if st1.slow % 5 = 1 then [.slowWarn st1.slow st1.pending.length] else []
        if 10 < st1.slow then (st1, .evict, [], warn ++ [.tooSlowDisconnect])
        else (st1, .proceed, [], warn)

/-- Outcome of the client socket read performed in the `select!`:
`Ok(0)` (peer closed), `Ok(n)` with the received frame and whether the
forward onto the aggregation channel succeeds, or a read error. -/
inductive ClientReadRes where
  | closed
  | bytes (data : Frame) (aggOk : Bool)
  | rerr
deriving DecidableEq, Repr

/-- One event of the handler's `select!` (retransmit_server.rs lines
105-152).  For a fan-out frame, `w` is the outcome of the immediate
timed write, consulted only when the pending queue is empty. -/
inductive HEvent where
  | fromInput (data : Frame) (w : WriteRes)
  | clientRead (r : ClientReadRes)
deriving DecidableEq, Repr

/-- Whether the handler loop continues or the handler terminates. -/
inductive StepExit where
  | next
  | disconnected
deriving DecidableEq, Repr

/-- The `select!` body of the per-client handler (retransmit_server.rs
lines 105-152).  Returns the new state, whether the handler loop
continues, the frames successfully written to the client socket, and
the log lines emitted. -/
def handleEvent (st : ClientState) (ev : HEvent) :
    ClientState × StepExit × List Frame × List ClientLog :=
  match ev with
  | .fromInput data w =>
    if st.pending.isEmpty then
      match w with
      | .ok => (st, .next, [data], [])
      | .werr => (st, .disconnected, [], [.writeErrClose])
      | .wtimeout =>
        ({ st with pending := st.pending ++ [data] }, .next, [], [.writeTimeoutBuffering])
    else
      if MAX_PENDING_WRITES ≤ st.pending.length then
        (st, .disconnected, [], [.bufferFullClose])
      else
        ({ st with pending := st.pending ++ [data] }, .next, [], [])
  | .clientRead r =>
    match r with
    | .closed => (st, .disconnected, [], [.clientClosed])
    | .bytes _ true => (st, .next, [], [])
    | .bytes _ false => (st, .disconnected, [], [.aggSendFailed])
    | .rerr => (st, .disconnected, [], [.readErrClose])

/-- One full iteration of the per-client handler loop
(retransmit_server.rs lines 77-153): flush pending writes, then handle
one `select!` event (skipped when the flush already terminated the
handler). -/
def handlerIteration (st : ClientState) (oracle : List WriteRes) (ev : HEvent) :
    ClientState × StepExit × List Frame × List ClientLog :=
  let f := flushPending st oracle
  match f.2.1 with
  | .evict => (f.1, .disconnected, f.2.2.1, f.2.2.2)
  | .werror => (f.1, .disconnected, f.2.2.1, f.2.2.2)
  | .proceed =>
    let e := handleEvent f.1 ev
    (e.1, e.2.1, f.2.2.1 ++ e.2.2.1, f.2.2.2 ++ e.2.2.2)

/-- A client that never reads, driven from the initial handler state:
every timed write elapses (`WriteRes.wtimeout`), and each iteration a
new frame arrives from the fan-out subscription.  Returns the state
after `n` iterations and whether the handler is still connected. -/
def neverReadsRun : Nat → ClientState × Bool
  | 0 => (⟨[], 0⟩, true)
  | n + 1 =>
    let p := neverReadsRun n
    if p.2 then
      let r := handlerIteration p.1 [WriteRes.wtimeout] (.fromInput [0] .wtimeout)
      (r.1, match r.2.1 with | .next => true | .disconnected => false)
    else p

/-! ## Helper lemmas about the publish/backpressure loop -/

/-- Unfolding `publishAux` one step after a non-initial failed send. -/
lemma publishAux_step (avail : Nat → Bool) (k r : Nat) (stats : Stats)
    (h : avail k = false) (hk : ¬ k = 0) :
    publishAux avail k (r + 1) stats =
      { outcome := (publishAux avail (k + 1) r stats).outcome,
        stats := (publishAux avail (k + 1) r stats).stats,
        delays := BASE_DELAY_MS * 2 ^ k :: (publishAux avail (k + 1) r stats).delays,
        logs := (if k % 3 = 0 then [LogMsg.retryMsg (k + 1) (BASE_DELAY_MS * 2 ^ k)] else []) ++
                (publishAux avail (k + 1) r stats).logs } := by
  conv_lhs => unfold publishAux
  simp [h, hk]

/-- Unfolding `publishAux` one step after the initial failed send: the
backpressure-event counter is bumped and the warning line is logged. -/
lemma publishAux_step0 (avail : Nat → Bool) (r : Nat) (stats : Stats)
    (h : avail 0 = false) :
    publishAux avail 0 (r + 1) stats =
      { outcome := (publishAux avail 1 r
          { stats with backpressureEvents := stats.backpressureEvents + 1 }).outcome,
        stats := (publishAux avail 1 r
          { stats with backpressureEvents := stats.backpressureEvents + 1 }).stats,
        delays := BASE_DELAY_MS * 2 ^ 0 :: (publishAux avail 1 r
          { stats with backpressureEvents := stats.backpressureEvents + 1 }).delays,
        logs := LogMsg.backpressureWarn (stats.backpressureEvents + 1) ::
                LogMsg.retryMsg 1 (BASE_DELAY_MS * 2 ^ 0) ::
                (publishAux avail 1 r
                  { stats with backpressureEvents := stats.backpressureEvents + 1 }).logs } := by
  conv_lhs => unfold publishAux
  simp [h]

/-- A send that succeeds after `j` further failures, starting from a
positive retry count `k`, returns `sent (k + j)` with the geometric
delay sequence, leaves the counters untouched and logs the recovery
line. -/
lemma publishAux_sent (avail : Nat → Bool) :
    ∀ (j k remaining : Nat) (stats : Stats), j ≤ remaining → 1 ≤ k →
      avail (k + j) = true → (∀ i, i < j → avail (k + i) = false) →
      ∃ logs, publishAux avail k remaining stats =
        { outcome := .sent (k + j), stats := stats, delays := geomDelays k j,
          logs := logs } ∧ LogMsg.recovered (k + j) ∈ logs := by
  intro j
  induction j with
  | zero =>
    intro k remaining stats _ hk hs _
    have hk' : 0 < k := hk
    refine ⟨[.recovered k], ?_, by simp⟩
    simp only [Nat.add_zero] at hs
    unfold publishAux
    simp [hs, hk', geomDelays]
  | succ j ih =>
    intro k remaining stats hj hk hs hf
    have hk0 : avail k = false := by simpa using hf 0 (by omega)
    have hkne : ¬ k = 0 := by omega
    obtain ⟨r, rfl⟩ : ∃ r, remaining = r + 1 := ⟨remaining - 1, by omega⟩
    have hs' : avail (k + 1 + j) = true := by
      have e : k + 1 + j = k + (j + 1) := by omega
      rw [e]; exact hs
    have hf' : ∀ i, i < j → avail (k + 1 + i) = false := by
      intro i hi
      have e : k + 1 + i = k + (i + 1) := by omega
      rw [e]; exact hf (i + 1) (by omega)
    obtain ⟨logs, heq, hmem⟩ := ih (k + 1) r stats (by omega) (by omega) hs' hf'
    refine ⟨(if k % 3 = 0 then [LogMsg.retryMsg (k + 1) (BASE_DELAY_MS * 2 ^ k)] else []) ++ logs,
      ?_, by have e : k + (j + 1) = k + 1 + j := by omega
             rw [e]; simp [hmem]⟩
    rw [publishAux_step avail k r stats hk0 hkne, heq]
    have e : k + 1 + j = k + (j + 1) := by omega
    simp [geomDelays, e]

/-- When every send through the retry budget fails, the loop drops the
frame, bumps the dropped-message counter by exactly one and logs the
error line. -/
lemma publishAux_droppedAll (avail : Nat → Bool) :
    ∀ (remaining k : Nat) (stats : Stats), 1 ≤ k →
      (∀ i, i ≤ remaining → avail (k + i) = false) →
      ∃ logs, publishAux avail k remaining stats =
        { outcome := .dropped,
          stats := { stats with droppedMessages := stats.droppedMessages + 1 },
          delays := geomDelays k remaining, logs := logs } ∧
        LogMsg.droppedErr (stats.droppedMessages + 1) ∈ logs := by
  intro remaining
  induction remaining with
  | zero =>
    intro k stats hk hf
    have hk0 : avail k = false := by simpa using hf 0 (by omega)
    have hkne : ¬ k = 0 := by omega
    refine ⟨[.droppedErr (stats.droppedMessages + 1)], ?_, by simp⟩
    unfold publishAux
    simp [hk0, hkne, geomDelays]
  | succ r ih =>
    intro k stats hk hf
    have hk0 : avail k = false := by simpa using hf 0 (by omega)
    have hkne : ¬ k = 0 := by omega
    have hf' : ∀ i, i ≤ r → avail (k + 1 + i) = false := by
      intro i hi
      have e : k + 1 + i = k + (i + 1) := by omega
      rw [e]; exact hf (i + 1) (by omega)
    obtain ⟨logs, heq, hmem⟩ := ih (k + 1) stats (by omega) hf'
    refine ⟨(if k % 3 = 0 then [LogMsg.retryMsg (k + 1) (BASE_DELAY_MS * 2 ^ k)] else []) ++ logs,
      ?_, by simp [hmem]⟩
    rw [publishAux_step avail k r stats hk0 hkne, heq]
    simp [geomDelays]

/-- The loop never sleeps more than `remaining` times. -/
lemma publishAux_delays_length (avail : Nat → Bool) :
    ∀ (remaining k : Nat) (stats : Stats),
      (publishAux avail k remaining stats).delays.length ≤ remaining := by
  intro remaining
  induction remaining with
  | zero =>
    intro k stats
    unfold publishAux
    by_cases h : avail k <;> simp [h]
  | succ r ih =>
    intro k stats
    unfold publishAux
    by_cases h : avail k <;> simp [h]
    exact ih (k + 1) _

/-- An immediately successful send publishes with zero retries, no
sleeps, no log lines and untouched counters. -/
lemma publish_sent_first (avail : Nat → Bool) (stats : Stats) (h : avail 0 = true) :
    publish avail stats =
      { outcome := .sent 0, stats := stats, delays := [], logs := [] } := by
  unfold publish publishAux
  simp [h]

/-- A publish that first succeeds at retry count `j ≥ 1` returns
`sent j` after the doubling delays `geomDelays 0 j`, bumps only the
backpressure-event counter, and logs the recovery line. -/
lemma publish_sent_later (avail : Nat → Bool) (stats : Stats) (j : Nat)
    (hj : j ≤ MAX_RETRIES) (h1 : 1 ≤ j) (hs : avail j = true)
    (hf : ∀ i, i < j → avail i = false) :
    ∃ logs, publish avail stats =
      { outcome := .sent j,
        stats := { stats with backpressureEvents := stats.backpressureEvents + 1 },
        delays := geomDelays 0 j, logs := logs } ∧
      LogMsg.recovered j ∈ logs := by
  have h0 : avail 0 = false := hf 0 h1
  obtain ⟨j', rfl⟩ : ∃ j', j = j' + 1 := ⟨j - 1, by omega⟩
  have hs' : avail (1 + j') = true := by
    have e : 1 + j' = j' + 1 := by omega
    rw [e]; exact hs
  have hf' : ∀ i, i < j' → avail (1 + i) = false := by
    intro i hi
    have e : 1 + i = i + 1 := by omega
    rw [e]; exact hf (i + 1) (by omega)
  have hj' : j' ≤ 9 := by simp [MAX_RETRIES] at hj; omega
  obtain ⟨logs, heq, hmem⟩ :=
    publishAux_sent avail j' 1 9
      { stats with backpressureEvents := stats.backpressureEvents + 1 }
      hj' (by omega) hs' hf'
  refine ⟨LogMsg.backpressureWarn (stats.backpressureEvents + 1) ::
          LogMsg.retryMsg 1 (BASE_DELAY_MS * 2 ^ 0) :: logs, ?_,
    by have e : j' + 1 = 1 + j' := by omega
       rw [e]; simp [hmem]⟩
  have hpub : publish avail stats = publishAux avail 0 (9 + 1) stats := rfl
  rw [hpub, publishAux_step0 avail 9 stats h0, heq]
  have e : 1 + j' = j' + 1 := by omega
  simp [geomDelays, e]

/-- When the channel refuses every send through the whole retry budget,
the publish drops the frame: the dropped-message counter is bumped by
exactly one, the backpressure-event counter by one, the ten doubling
delays are slept, and the error line is logged. -/
lemma publish_dropped_all (avail : Nat → Bool) (stats : Stats)
    (h : ∀ i, i ≤ MAX_RETRIES → avail i = false) :
    ∃ logs, publish avail stats =
      { outcome := .dropped,
        stats := { droppedMessages := stats.droppedMessages + 1,
                   backpressureEvents := stats.backpressureEvents + 1 },
        delays := geomDelays 0 MAX_RETRIES, logs := logs } ∧
      LogMsg.droppedErr (stats.droppedMessages + 1) ∈ logs := by
  have h0 : avail 0 = false := h 0 (by simp [MAX_RETRIES])
  have hf' : ∀ i, i ≤ 9 → avail (1 + i) = false := by
    intro i hi
    have e : 1 + i = i + 1 := by omega
    rw [e]
    exact h (i + 1) (by simp [MAX_RETRIES]; omega)
  obtain ⟨logs, heq, hmem⟩ :=
    publishAux_droppedAll avail 9 1
      { stats with backpressureEvents := stats.backpressureEvents + 1 }
      (by omega) hf'
  refine ⟨LogMsg.backpressureWarn (stats.backpressureEvents + 1) ::
          LogMsg.retryMsg 1 (BASE_DELAY_MS * 2 ^ 0) :: logs, ?_, by simp [hmem]⟩
  have hpub : publish avail stats = publishAux avail 0 (9 + 1) stats := rfl
  rw [hpub, publishAux_step0 avail 9 stats h0, heq]
  have e : MAX_RETRIES = 9 + 1 := rfl
  rw [e]
  simp [geomDelays]

/-! ## Helper lemmas about the per-client handler -/

/-- The flush loop only ever removes frames from the front of the
pending queue, and the frames it writes are exactly the removed prefix,
in order: for some `k`, the written frames are `pending.take k` and the
queue left behind is `pending.drop k`. -/
lemma flushPending_take_drop :
    ∀ (oracle : List WriteRes) (st : ClientState),
      ∃ k, (flushPending st oracle).2.2.1 = st.pending.take k ∧
           (flushPending st oracle).1.pending = st.pending.drop k := by
  intro oracle
  induction oracle with
  | nil =>
    intro st
    obtain ⟨pending, slow⟩ := st
    refine ⟨0, ?_, ?_⟩ <;> cases pending <;> simp [flushPending]
  | cons w ws ih =>
    intro st
    obtain ⟨pending, slow⟩ := st
    cases pending with
    | nil => exact ⟨0, by simp [flushPending], by simp [flushPending]⟩
    | cons data rest =>
      cases w with
      | ok =>
        obtain ⟨k, h1, h2⟩ := ih ⟨rest, slow⟩
        exact ⟨k + 1, by simp [flushPending, h1], by simp [flushPending, h2]⟩
      | werr => exact ⟨0, by simp [flushPending], by simp [flushPending]⟩
      | wtimeout =>
        by_cases h10 : 10 < slow + 1 <;>
          exact ⟨0, by simp [flushPending, h10], by simp [flushPending, h10]⟩

/-- The flush loop never lengthens the pending queue. -/
lemma flushPending_pending_le (oracle : List WriteRes) (st : ClientState) :
    (flushPending st oracle).1.pending.length ≤ st.pending.length := by
  obtain ⟨k, _, h2⟩ := flushPending_take_drop oracle st
  rw [h2]
  simp

/-- One `select!` event never pushes the pending queue beyond the
`MAX_PENDING_WRITES` bound. -/
lemma handleEvent_pending_le (st : ClientState) (ev : HEvent)
    (h : st.pending.length ≤ MAX_PENDING_WRITES) :
    (handleEvent st ev).1.pending.length ≤ MAX_PENDING_WRITES := by
  obtain ⟨pending, slow⟩ := st
  cases ev with
  | fromInput data w =>
    cases pending with
    | nil =>
      cases w <;> simp [handleEvent, MAX_PENDING_WRITES]
    | cons p rest =>
      simp only [handleEvent]
      split
      · rename_i hemp
        simp at hemp
      · split
        · simpa using h
        · rename_i hlt
          simp [MAX_PENDING_WRITES] at hlt ⊢
          omega
  | clientRead r =>
    cases r with
    | closed => simpa [handleEvent] using h
    | bytes data aggOk => cases aggOk <;> simpa [handleEvent] using h
    | rerr => simpa [handleEvent] using h

/-! ## Claim theorems -/

/-- C1: while the fan-out channel stays saturated through the whole
retry budget (every send attempt of the backpressure loop fails), the
frame is dropped, the dropped-message counter increments by exactly 1,
and the slept retry delays sum to 1023 ms at the reference constants;
once congestion clears (the immediate send succeeds), the next publish
succeeds with no retries, no sleeps and unchanged counters. -/
theorem C1_saturated_drop_and_recovery (stats : Stats) :
    (∀ avail : Nat → Bool, (∀ k, k ≤ MAX_RETRIES → avail k = false) →
        (publish avail stats).outcome = .dropped ∧
        (publish avail stats).stats.droppedMessages = stats.droppedMessages + 1 ∧
        (publish avail stats).delays.sum = 1023) ∧
    (∀ avail : Nat → Bool, avail 0 = true →
        (publish avail stats).outcome = .sent 0 ∧
        (publish avail stats).delays = [] ∧
        (publish avail stats).stats = stats) := by
  constructor
  · intro avail h
    obtain ⟨logs, heq, _⟩ := publish_dropped_all avail stats h
    rw [heq]
    exact ⟨rfl, rfl, (by decide : (geomDelays 0 MAX_RETRIES).sum = 1023)⟩
  · intro avail h
    rw [publish_sent_first avail stats h]
    exact ⟨rfl, rfl, rfl⟩

/-- C1 witness: a channel that always refuses leads to a drop with
counter 1 and 1023 ms of cumulative backoff; a channel that accepts
immediately leads to a publish with zero retries. -/
theorem C1_saturated_drop_and_recovery_witness :
    (publish (fun _ => false) ⟨0, 0⟩).outcome = .dropped ∧
    (publish (fun _ => false) ⟨0, 0⟩).stats.droppedMessages = 0 + 1 ∧
    (publish (fun _ => false) ⟨0, 0⟩).delays.sum = 1023 ∧
    (publish (fun _ => true) ⟨0, 0⟩).outcome = .sent 0 ∧
    (publish (fun _ => true) ⟨0, 0⟩).delays = [] := by
  obtain ⟨h1, h2⟩ := C1_saturated_drop_and_recovery ⟨0, 0⟩
  obtain ⟨a1, a2, a3⟩ := h1 (fun _ => false) (fun _ _ => rfl)
  obtain ⟨b1, b2, _⟩ := h2 (fun _ => true) rfl
  exact ⟨a1, a2, a3, b1, b2⟩

/-- C2: the publish algorithm first tries an immediate send (success
with no retry leaves no delays and no logs); on each send failure it
sleeps an exponentially doubling delay starting at 1 ms, so a success
at retry `j` slept exactly `geomDelays 0 j` (and logged the recovery
line because `j ≥ 1`); it retries at most `MAX_RETRIES = 10` times
(`geomDelays 0 10 = [1,2,4,...,512]`), and on exhausting the cap it
drops the frame, increments the dropped-message counter by one, and
logs the drop at error severity. -/
theorem C2_backoff_algorithm (stats : Stats) :
    (∀ avail : Nat → Bool, avail 0 = true →
        publish avail stats =
          { outcome := .sent 0, stats := stats, delays := [], logs := [] }) ∧
    (∀ avail : Nat → Bool, ∀ j, 1 ≤ j → j ≤ MAX_RETRIES → avail j = true →
        (∀ i, i < j → avail i = false) →
        (publish avail stats).outcome = .sent j ∧
        (publish avail stats).delays = geomDelays 0 j ∧
        (publish avail stats).stats.droppedMessages = stats.droppedMessages ∧
        LogMsg.recovered j ∈ (publish avail stats).logs) ∧
    (∀ avail : Nat → Bool, (∀ k, k ≤ MAX_RETRIES → avail k = false) →
        (publish avail stats).outcome = .dropped ∧
        (publish avail stats).delays = geomDelays 0 MAX_RETRIES ∧
        (publish avail stats).stats.droppedMessages = stats.droppedMessages + 1 ∧
        LogMsg.droppedErr (stats.droppedMessages + 1) ∈ (publish avail stats).logs) ∧
    geomDelays 0 MAX_RETRIES = [1, 2, 4, 8, 16, 32, 64, 128, 256, 512] ∧
    (∀ avail : Nat → Bool, (publish avail stats).delays.length ≤ MAX_RETRIES) := by
  refine ⟨?_, ?_, ?_, by decide, ?_⟩
  · intro avail h
    exact publish_sent_first avail stats h
  · intro avail j h1 hj hs hf
    obtain ⟨logs, heq, hmem⟩ := publish_sent_later avail stats j hj h1 hs hf
    rw [heq]
    exact ⟨rfl, rfl, rfl, hmem⟩
  · intro avail h
    obtain ⟨logs, heq, hmem⟩ := publish_dropped_all avail stats h
    rw [heq]
    exact ⟨rfl, rfl, rfl, hmem⟩
  · intro avail
    exact publishAux_delays_length avail MAX_RETRIES 0 stats

/-- C2 witness: with a channel that first accepts at retry 3, the
publish returns `sent 3` after delays 1, 2, 4 ms and logs the recovery
line; with a channel that never accepts, it drops after the ten
doubling delays. -/
theorem C2_backoff_algorithm_witness :
    (publish (fun k => k == 3) ⟨0, 0⟩).outcome = .sent 3 ∧
    (publish (fun k => k == 3) ⟨0, 0⟩).delays = [1, 2, 4] ∧
    LogMsg.recovered 3 ∈ (publish (fun k => k == 3) ⟨0, 0⟩).logs ∧
    (publish (fun _ => false) ⟨0, 0⟩).delays = [1, 2, 4, 8, 16, 32, 64, 128, 256, 512] := by
  obtain ⟨-, h2, h3, h4, -⟩ := C2_backoff_algorithm ⟨0, 0⟩
  obtain ⟨a1, a2, _, a4⟩ := h2 (fun k => k == 3) 3 (by decide) (by decide) rfl
    (fun i hi => by simpa using Nat.ne_of_lt hi)
  obtain ⟨_, b2, _, _⟩ := h3 (fun _ => false) (fun _ _ => rfl)
  refine ⟨a1, ?_, a4, ?_⟩
  · rw [a2]; decide
  · rw [b2, h4]

/-- C3 counterexample: a write-timeout does NOT always increment the
slow-client counter.  When the pending queue is empty, the immediate
timed write of a fresh fan-out frame can time out: the frame is
buffered (the buffering warning is logged, showing the timeout
happened) but the counter stays unchanged.  Consequently a client that
never reads survives 11 timed-out writes (11 × writeTimeoutMs): it is
only disconnected at its 12th. -/
theorem C3_counterexample :
    (handleEvent ⟨[], 0⟩ (.fromInput [7] .wtimeout)).1.slow = 0 ∧
    handleEvent ⟨[], 0⟩ (.fromInput [7] .wtimeout) =
      (⟨[[7]], 0⟩, .next, [], [.writeTimeoutBuffering]) ∧
    (neverReadsRun 11).2 = true := by
  refine ⟨by decide, by decide, by decide⟩

/-- C3 (amended): every write-timeout hit while flushing the pending
queue increments the slow-client counter (leaving the queue itself
unchanged), logging a warning on every 5th occurrence counting the 1st
(counter ≡ 1 mod 5) and forcibly disconnecting the client as soon as
the counter exceeds 10; a write-timeout on the immediate write
performed when the queue is empty buffers the frame without touching
the counter, so a client that never reads is disconnected after at most
12 timed-out writes (writeTimeoutMs * 12): it is still connected after
11 of them and disconnected at the 12th. -/
theorem C3_amended_slow_client_eviction :
    (∀ (st : ClientState) (os : List WriteRes), st.pending ≠ [] →
        flushPending st (.wtimeout :: os) =
          ({ st with slow := st.slow + 1 },
           (if 10 < st.slow + 1 then FlushOutcome.evict else FlushOutcome.proceed),
           ([] : List Frame),
           ((if (st.slow + 1) % 5 = 1 then
               [ClientLog.slowWarn (st.slow + 1) st.pending.length] else []) ++
            (if 10 < st.slow + 1 then [ClientLog.tooSlowDisconnect] else [])))) ∧
    (∀ (st : ClientState) (data : Frame), st.pending = [] →
        handleEvent st (.fromInput data .wtimeout) =
          ({ st with pending := [data] }, .next, [], [.writeTimeoutBuffering])) ∧
    (neverReadsRun 11).2 = true ∧ (neverReadsRun 12).2 = false := by
  refine ⟨?_, ?_, by decide, by decide⟩
  · intro st os hne
    obtain ⟨pending, slow⟩ := st
    cases pending with
    | nil => simp at hne
    | cons p rest =>
      by_cases h10 : 10 < slow + 1 <;> simp [flushPending, h10]
  · intro st data h
    obtain ⟨pending, slow⟩ := st
    cases pending with
    | nil => simp [handleEvent]
    | cons p rest => simp at h

/-- C3 (amended) witness: at counter 0 with one pending frame, a flush
timeout raises the counter to 1, keeps the frame queued and logs the
first warning; at counter 10 it evicts; with an empty queue the
immediate-write timeout buffers without counting. -/
theorem C3_amended_slow_client_eviction_witness :
    flushPending ⟨[[5]], 0⟩ [.wtimeout] =
      (⟨[[5]], 1⟩, .proceed, [], [.slowWarn 1 1]) ∧
    flushPending ⟨[[5]], 10⟩ [.wtimeout] =
      (⟨[[5]], 11⟩, .evict, [], [.slowWarn 11 1, .tooSlowDisconnect]) ∧
    handleEvent ⟨[], 4⟩ (.fromInput [9] .wtimeout) =
      (⟨[[9]], 4⟩, .next, [], [.writeTimeoutBuffering]) := by
  obtain ⟨h1, h2, -, -⟩ := C3_amended_slow_client_eviction
  refine ⟨?_, ?_, ?_⟩
  · have := h1 ⟨[[5]], 0⟩ [] (by decide)
    simpa using this
  · have := h1 ⟨[[5]], 10⟩ [] (by decide)
    simpa using this
  · exact h2 ⟨[], 4⟩ [9] rfl

/-- C4: when a new frame arrives from the fan-out subscription with an
empty pending queue, an immediate timed write is attempted (a success
writes exactly that frame) and the frame is buffered on timeout; with a
non-empty queue already holding at least `MAX_PENDING_WRITES = 100`
frames the connection is closed and the frame is not enqueued; with a
shorter non-empty queue the frame is appended at the back. -/
theorem C4_fanout_frame_handling :
    (∀ (st : ClientState) (data : Frame), st.pending = [] →
        handleEvent st (.fromInput data .ok) = (st, .next, [data], []) ∧
        handleEvent st (.fromInput data .wtimeout) =
          ({ st with pending := [data] }, .next, [], [.writeTimeoutBuffering])) ∧
    (∀ (st : ClientState) (data : Frame) (w : WriteRes),
        st.pending ≠ [] → MAX_PENDING_WRITES ≤ st.pending.length →
        handleEvent st (.fromInput data w) = (st, .disconnected, [], [.bufferFullClose])) ∧
    (∀ (st : ClientState) (data : Frame) (w : WriteRes),
        st.pending ≠ [] → st.pending.length < MAX_PENDING_WRITES →
        handleEvent st (.fromInput data w) =
          ({ st with pending := st.pending ++ [data] }, .next, [], [])) := by
  refine ⟨?_, ?_, ?_⟩
  · intro st data h
    obtain ⟨pending, slow⟩ := st
    cases pending with
    | nil => constructor <;> simp [handleEvent]
    | cons p rest => simp at h
  · intro st data w hne hfull
    obtain ⟨pending, slow⟩ := st
    cases pending with
    | nil => simp at hne
    | cons p rest =>
      have hfull' : MAX_PENDING_WRITES ≤ (p :: rest).length := hfull
      simp only [List.length_cons] at hfull'
      simp [handleEvent, hfull']
  · intro st data w hne hlt
    obtain ⟨pending, slow⟩ := st
    cases pending with
    | nil => simp at hne
    | cons p rest =>
      have hlt' : ¬ MAX_PENDING_WRITES ≤ rest.length + 1 := by
        have hx : (p :: rest).length < MAX_PENDING_WRITES := hlt
        simp only [List.length_cons] at hx
        omega
      simp [handleEvent, hlt']

/-- C4 witness: on an empty queue an immediate write success delivers
the frame and a timeout buffers it; at exactly 100 pending frames the
handler disconnects without enqueueing; below the bound it appends. -/
theorem C4_fanout_frame_handling_witness :
    handleEvent ⟨[], 0⟩ (.fromInput [1] .ok) = (⟨[], 0⟩, .next, [[1]], []) ∧
    handleEvent ⟨List.replicate 100 [2], 0⟩ (.fromInput [1] .ok) =
      (⟨List.replicate 100 [2], 0⟩, .disconnected, [], [.bufferFullClose]) ∧
    handleEvent ⟨[[2]], 0⟩ (.fromInput [1] .ok) = (⟨[[2], [1]], 0⟩, .next, [], []) := by
  obtain ⟨h1, h2, h3⟩ := C4_fanout_frame_handling
  refine ⟨(h1 ⟨[], 0⟩ [1] rfl).1, ?_, ?_⟩
  · have := h2 ⟨List.replicate 100 [2], 0⟩ [1] .ok (by decide) (by decide)
    exact this
  · have := h3 ⟨[[2]], 0⟩ [1] .ok (by decide) (by decide)
    simpa using this

/-- C5: the flush loop removes frames from the pending queue only from
the front and only by successful writes: the frames it writes are
exactly the removed prefix in FIFO order (`take k`) and the queue left
behind is the corresponding suffix (`drop k`); a write timeout leaves
the queue unchanged (nothing written), so the oldest frame is retried
on the next loop iteration rather than skipped. -/
theorem C5_fifo_flush (st : ClientState) (oracle : List WriteRes) :
    (∃ k, (flushPending st oracle).2.2.1 = st.pending.take k ∧
          (flushPending st oracle).1.pending = st.pending.drop k) ∧
    (st.pending ≠ [] →
        (flushPending st (.wtimeout :: oracle)).1.pending = st.pending ∧
        (flushPending st (.wtimeout :: oracle)).2.2.1 = []) := by
  refine ⟨flushPending_take_drop oracle st, ?_⟩
  intro hne
  obtain ⟨pending, slow⟩ := st
  cases pending with
  | nil => simp at hne
  | cons p rest =>
    constructor <;> (by_cases h10 : 10 < slow + 1 <;> simp [flushPending, h10])

/-- C5 witness: with two queued frames, one successful write dequeues
exactly the front; a timeout leaves both frames queued and writes
nothing. -/
theorem C5_fifo_flush_witness :
    (flushPending ⟨[[1], [2]], 3⟩ [.wtimeout]).1.pending = [[1], [2]] ∧
    (flushPending ⟨[[1], [2]], 3⟩ [.wtimeout]).2.2.1 = [] := by
  exact (C5_fifo_flush ⟨[[1], [2]], 3⟩ []).2 (by decide)

/-- C6: for a `TcpServer` transport, a read with no accepted peer
performs an accept and then returns `Ok(0)` with the peer installed; if
the accepted peer closes (underlying read `Ok(0)`), the peer is cleared
and `Ok(0)` is returned; if the peer read errors, the peer is cleared
and the error is returned; in both cases the very next read call
re-accepts a new peer (returning `Ok(0)` again) without any restart. -/
theorem C6_tcp_server_reconnect :
    (∀ (p : Nat) (u : IORes),
        InputSocket.read (.tcpServer p true false) u true =
          (.ok 0, .tcpServer p true true)) ∧
    (∀ (p : Nat) (srv a : Bool),
        InputSocket.read (.tcpServer p srv true) (.ok 0) a =
          (.ok 0, .tcpServer p srv false)) ∧
    (∀ (p : Nat) (srv a : Bool),
        InputSocket.read (.tcpServer p srv true) .err a =
          (.err, .tcpServer p srv false)) ∧
    (∀ (p : Nat) (a : Bool) (u : IORes),
        InputSocket.read (InputSocket.read (.tcpServer p true true) (.ok 0) a).2 u true =
          (.ok 0, .tcpServer p true true)) ∧
    (∀ (p : Nat) (a : Bool) (u : IORes),
        InputSocket.read (InputSocket.read (.tcpServer p true true) .err a).2 u true =
          (.ok 0, .tcpServer p true true)) := by
  refine ⟨?_, ?_, ?_, ?_, ?_⟩ <;> intros <;> simp [InputSocket.read]

/-- C7: a write on a `UdpSocket` transport returns `Ok(0)` and hands no
bytes to any transport, whatever the buffer; a write on a `TcpServer`
transport with no accepted peer does the same (data silently discarded,
no error, nothing queued). -/
theorem C7_write_noop :
    (∀ (p : Nat) (b : Bool) (buf : Frame) (wr : WriteAllRes),
        InputSocket.write (.udpSocket p b) buf wr = (.ok 0, [])) ∧
    (∀ (p : Nat) (srv : Bool) (buf : Frame) (wr : WriteAllRes),
        InputSocket.write (.tcpServer p srv false) buf wr = (.ok 0, [])) := by
  constructor <;> intros <;> simp [InputSocket.write]

/-- C8 counterexample: a read returning `n = 0` is not treated as "no
data": with the channel accepting, the run loop still publishes one
frame — the buffer truncated to zero length — on the fan-out channel,
so the list of frames published in that iteration is `[[]]`, not `[]`. -/
theorem C8_counterexample :
    (runLoopPublishOnRead (fun _ => true) ⟨0, 0⟩ (List.replicate 8192 0) 0).1 = [[]] ∧
    (runLoopPublishOnRead (fun _ => true) ⟨0, 0⟩ (List.replicate 8192 0) 0).1 ≠ [] := by
  exact ⟨by decide, by decide⟩

/-- C8 (amended): in the input-port run loop, a read that returns
`n = 0` still enters the publish path with the buffer truncated to zero
length: every frame published in that iteration is the empty frame, and
when the fan-out channel accepts the immediate send, exactly one empty
frame is published; no payload bytes are forwarded. -/
theorem C8_amended_empty_frame (avail : Nat → Bool) (stats : Stats) (buf : Frame) :
    (∀ f, f ∈ (runLoopPublishOnRead avail stats buf 0).1 → f = []) ∧
    (avail 0 = true → (runLoopPublishOnRead avail stats buf 0).1 = [[]]) := by
  constructor
  · intro f hf
    rcases h : (publish avail stats).outcome with j | _ <;>
      simp [runLoopPublishOnRead, h] at hf
    simp [hf]
  · intro h0
    simp [runLoopPublishOnRead, publish_sent_first avail stats h0]

/-- C8 (amended) witness: at a concrete buffer and an accepting
channel, the `n = 0` iteration publishes exactly one empty frame. -/
theorem C8_amended_empty_frame_witness :
    (runLoopPublishOnRead (fun _ => true) ⟨0, 0⟩ [1, 2, 3] 0).1 = [[]] := by
  exact (C8_amended_empty_frame (fun _ => true) ⟨0, 0⟩ [1, 2, 3]).2 rfl

/-- C9: the pending-write queue is bounded by
`MAX_PENDING_WRITES = 100` frames: a full handler iteration (flush plus
one event) preserves the bound, and at a queue already holding exactly
100 frames a further fan-out frame disconnects the handler instead of
enqueueing. -/
theorem C9_pending_queue_bounded :
    (∀ (st : ClientState) (oracle : List WriteRes) (ev : HEvent),
        st.pending.length ≤ MAX_PENDING_WRITES →
        (handlerIteration st oracle ev).1.pending.length ≤ MAX_PENDING_WRITES) ∧
    (∀ (st : ClientState) (data : Frame) (w : WriteRes),
        st.pending.length = MAX_PENDING_WRITES →
        handleEvent st (.fromInput data w) =
          (st, .disconnected, [], [.bufferFullClose])) := by
  constructor
  · intro st oracle ev h
    have hf : (flushPending st oracle).1.pending.length ≤ MAX_PENDING_WRITES :=
      le_trans (flushPending_pending_le oracle st) h
    simp only [handlerIteration]
    split
    · exact hf
    · exact hf
    · simpa using handleEvent_pending_le (flushPending st oracle).1 ev hf
  · intro st data w h
    obtain ⟨pending, slow⟩ := st
    cases pending with
    | nil => simp [MAX_PENDING_WRITES] at h
    | cons p rest =>
      have hfull' : MAX_PENDING_WRITES ≤ rest.length + 1 := by
        have hx : (p :: rest).length = MAX_PENDING_WRITES := h
        simp only [List.length_cons] at hx
        omega
      simp [handleEvent, hfull']

/-- C9 witness: a handler iteration from a legal state keeps the bound;
a handler at exactly 100 pending frames disconnects on the next fan-out
frame. -/
theorem C9_pending_queue_bounded_witness :
    (handlerIteration ⟨[[4]], 2⟩ [.wtimeout] (.fromInput [1] .ok)).1.pending.length ≤
      MAX_PENDING_WRITES ∧
    handleEvent ⟨List.replicate 100 [0], 0⟩ (.fromInput [1] .ok) =
      (⟨List.replicate 100 [0], 0⟩, .disconnected, [], [.bufferFullClose]) := by
  constructor
  · exact (C9_pending_queue_bounded).1 ⟨[[4]], 2⟩ [.wtimeout] (.fromInput [1] .ok) (by decide)
  · exact (C9_pending_queue_bounded).2 ⟨List.replicate 100 [0], 0⟩ [1] .ok (by decide)

/-- C10: whenever a write on a connected `TcpSocket`, a connected
`Serial`, or a `TcpServer` transport with an accepted peer returns
`Ok(n)`, `n` is exactly the length of the input buffer and the bytes
handed to the transport are exactly the buffer (the underlying call is
`write_all`): no successful partial write is ever reported. -/
theorem C10_write_reports_full_length (buf : Frame) (wr : WriteAllRes) (n : Nat) :
    (∀ (ip : String) (port : Option Nat) (t : Frame),
        InputSocket.write (.tcpSocket ip port true) buf wr = (.ok n, t) →
        n = buf.length ∧ t = buf) ∧
    (∀ (dev : String) (baud : Option Nat) (t : Frame),
        InputSocket.write (.serial dev baud true) buf wr = (.ok n, t) →
        n = buf.length ∧ t = buf) ∧
    (∀ (p : Nat) (srv : Bool) (t : Frame),
        InputSocket.write (.tcpServer p srv true) buf wr = (.ok n, t) →
        n = buf.length ∧ t = buf) := by
  refine ⟨?_, ?_, ?_⟩ <;>
    (intro a b t h
     cases wr <;> simp [InputSocket.write] at h
     exact ⟨h.1.symm, h.2.symm⟩)

/-- C10 witness: a successful write of a three-byte buffer reports
exactly three bytes. -/
theorem C10_write_reports_full_length_witness :
    InputSocket.write (.tcpSocket "host" none true) [1, 2, 3] .ok = (.ok 3, [1, 2, 3]) ∧
    (3 : Nat) = ([1, 2, 3] : Frame).length := by
  have h := (C10_write_reports_full_length [1, 2, 3] .ok 3).1 "host" none [1, 2, 3] (by rfl)
  exact ⟨by rfl, h.1⟩

